import Mathlib

/-!
Shallow embedding of the SOLID demonstration scripts
(`src/Python/Nivel4/Modulo_7/*`), one namespace per Python module:

* `OcpExample`  — `2_O_OCP/ocp_example.py`
* `LspExemple`  — `3_L_LSP/lsp_exemple.py`
* `IspExemple`  — `4_I_ISP/isp_exemple.py`
* `DipExample`  — `5_D_DIP/dip_example.py`
* `SrpExemple`  — `1_S_SRP/srp_exemple.py`

Conventions used throughout:

* Python `float` is embedded as `ℚ`.  Every concrete numeric input appearing
  in a claim (price `100.0` against the rates `0.0, 0.05, 0.10, 0.15, 0.20,
  0.30`) is a value at which IEEE-754 double arithmetic is exact and agrees
  with the rational result, so the embedding is faithful at those inputs.
* `print` side effects are embedded as explicitly returned output: a method
  that prints returns the list of printed lines (as `String`s built by the
  same concatenation the f-string performs, or as structured events where
  the f-string would format a number).
* A Python method that can raise is embedded as a function into
  `Except PyError _`; a method whose body contains no `raise` returns
  `Except.ok` on every path.
* A class whose methods assign to `self` fields is embedded with explicit
  state passing: the mutating method returns the updated structure value.
* A `for`-loop over bound providers is embedded as structural recursion on
  the list, instrumented with the sequence of provider invocations it
  performs (a call trace), which is what the fan-out claims quantify over.
-/

/-- A Python exception, as surfaced by `raise` in the examples. -/
inductive PyError where
  | notImplementedError (msg : String)
  | exception (msg : String)
deriving DecidableEq, Repr

namespace OcpExample

/-- `DiscountCalculatorBad.calculate_discount` (`ocp_example.py` lines 16-28):
the `if/elif` chain keyed on the `customer_type` string.  The body contains
no `raise`, so every branch — including the final `else: return 0.0` — is an
`Except.ok` result. -/
def DiscountCalculatorBad.calculate_discount (customer_type : String) (price : ℚ) :
    Except PyError ℚ :=
  if customer_type = "regular" then .ok (price * 0)
  else if customer_type = "premium" then .ok (price * (1/10))
  else if customer_type = "vip" then .ok (price * (1/5))
  else if customer_type = "employee" then .ok (price * (3/10))
  else .ok 0

/-- The concrete `Discount` providers of `ocp_example.py` (lines 41-81). -/
inductive Discount where
  | noDiscount
  | regularDiscount
  | premiumDiscount
  | vipDiscount
  | employeeDiscount
  | seasonalDiscount
deriving DecidableEq, Repr

/-- `calculate` of each `Discount` subclass (`ocp_example.py` lines 44-81). -/
def Discount.calculate : Discount → ℚ → ℚ
  | .noDiscount, _ => 0
  | .regularDiscount, price => price * (1/20)
  | .premiumDiscount, price => price * (1/10)
  | .vipDiscount, price => price * (1/5)
  | .employeeDiscount, price => price * (3/10)
  | .seasonalDiscount, price => price * (3/20)

/-- `DiscountCalculator.calculate_final_price` (`ocp_example.py` lines 87-90):
`discount_amount = discount.calculate(price); return price - discount_amount`. -/
def DiscountCalculator.calculate_final_price (price : ℚ) (discount : Discount) : ℚ :=
  price - discount.calculate price

/-- The concrete `Notifier` providers of `ocp_example.py` (lines 103-129). -/
inductive Notifier where
  | emailNotifier
  | smsNotifier
  | pushNotifier
  | whatsAppNotifier
deriving DecidableEq, Repr

/-- The line `send` prints for each `Notifier` subclass
(`ocp_example.py` lines 106-129). -/
def Notifier.send : Notifier → String → String
  | .emailNotifier, message => "📧 Enviando e-mail: " ++ message
  | .smsNotifier, message => "📱 Enviando SMS: " ++ message
  | .pushNotifier, message => "🔔 Enviando notificação push: " ++ message
  | .whatsAppNotifier, message => "💬 Enviando WhatsApp: " ++ message

/-- One recorded invocation `notifier.send(message)` made by the
`notify_all` loop. -/
structure NotifierCall where
  notifier : Notifier
  message : String
deriving DecidableEq, Repr

/-- `NotificationService` (`ocp_example.py` lines 132-145): its only field is
`self.notifiers`, initialised to `[]` by `__init__`. -/
structure NotificationService where
  notifiers : List Notifier
deriving DecidableEq, Repr

/-- `NotificationService.add_notifier` (`ocp_example.py` lines 138-140):
`self.notifiers.append(notifier)` — returns the updated state. -/
def NotificationService.add_notifier (svc : NotificationService) (notifier : Notifier) :
    NotificationService :=
  ⟨svc.notifiers ++ [notifier]⟩

/-- The loop body of `notify_all` (`ocp_example.py` lines 144-145):
`for notifier in self.notifiers: notifier.send(message)`, instrumented with
the sequence of `send` invocations it performs, in order. -/
def notifyAllLoop : List Notifier → String → List NotifierCall
  | [], _ => []
  | notifier :: rest, message => ⟨notifier, message⟩ :: notifyAllLoop rest message

/-- `NotificationService.notify_all` (`ocp_example.py` lines 142-145), as the
call trace of its loop. -/
def NotificationService.notify_all (svc : NotificationService) (message : String) :
    List NotifierCall :=
  notifyAllLoop svc.notifiers message

end OcpExample

namespace DipExample

/-- The concrete `Database` providers of `dip_example.py` (lines 56-95). -/
inductive Database where
  | mySQLDatabaseCorrect
  | postgreSQLDatabase
  | mongoDBDatabase
deriving DecidableEq, Repr

/-- `get_data` of each `Database` subclass (`dip_example.py` lines 65-95):
the pair (returned string, printed lines). -/
def Database.get_data : Database → String → String × List String
  | .mySQLDatabaseCorrect, id =>
    ("Dados do MySQL (ID: " ++ id ++ ")", ["📖 Buscando no MySQL: ID " ++ id])
  | .postgreSQLDatabase, id =>
    ("Dados do PostgreSQL (ID: " ++ id ++ ")", ["📖 Buscando no PostgreSQL: ID " ++ id])
  | .mongoDBDatabase, id =>
    ("Dados do MongoDB (ID: " ++ id ++ ")", ["📖 Buscando no MongoDB: ID " ++ id])

/-- `UserService` (`dip_example.py` lines 98-110): holds the injected
`Database` abstraction. -/
structure UserService where
  database : Database
deriving DecidableEq, Repr

/-- `UserService.get_user` (`dip_example.py` lines 109-110):
`return self.database.get_data(id)`. -/
def UserService.get_user (svc : UserService) (id : String) : String × List String :=
  svc.database.get_data id

/-- The concrete `MessageSender` providers of `dip_example.py` (lines 143-161). -/
inductive MessageSender where
  | emailSender
  | smsSender
  | pushNotificationSender
deriving DecidableEq, Repr

/-- The line `send` prints for each `MessageSender` subclass
(`dip_example.py` lines 146-161). -/
def MessageSender.send : MessageSender → String → String
  | .emailSender, message => "📧 Enviando e-mail: " ++ message
  | .smsSender, message => "📱 Enviando SMS: " ++ message
  | .pushNotificationSender, message => "🔔 Enviando notificação push: " ++ message

/-- One recorded invocation `sender.send(message)` made by the `notify` loop. -/
structure SendCall where
  sender : MessageSender
  message : String
deriving DecidableEq, Repr

/-- `NotificationService` of `dip_example.py` (lines 164-174): holds the
injected ordered list of `MessageSender`s. -/
structure NotificationService where
  senders : List MessageSender
deriving DecidableEq, Repr

/-- The loop body of `notify` (`dip_example.py` lines 173-174):
`for sender in self.senders: sender.send(message)`, instrumented with the
sequence of `send` invocations it performs, in order. -/
def notifyLoop : List MessageSender → String → List SendCall
  | [], _ => []
  | sender :: rest, message => ⟨sender, message⟩ :: notifyLoop rest message

/-- `NotificationService.notify` (`dip_example.py` lines 171-174), as the
call trace of its loop. -/
def NotificationService.notify (svc : NotificationService) (message : String) :
    List SendCall :=
  notifyLoop svc.senders message

/-- The same fan-out loop `for sender in self.senders: sender.send(message)`
under Python exception semantics, with the provider type and the behaviour
of `send` as parameters (the fan-out claims quantify over all providers
bound to the consumer, including ones whose `send` raises).  Returns the
list of providers whose `send` was actually invoked, the accumulated
printed output of the successful invocations, and the exception (if any)
that aborted the loop: an exception raised by iteration `k` propagates
immediately and ends the loop, exactly as in Python. -/
def notifyRun {α : Type} (send : α → String → Except PyError (List String)) :
    List α → String → List α × List String × Option PyError
  | [], _ => ([], [], none)
  | s :: rest, message =>
    match send s message with
    | .error e => ([s], [], some e)
    | .ok out =>
      let (called, outs, err) := notifyRun send rest message
      (s :: called, out ++ outs, err)

/-- The concrete `PaymentProcessor` providers of `dip_example.py`
(lines 186-207). -/
inductive PaymentProcessor where
  | creditCardProcessor
  | payPalProcessor
  | pixProcessor
deriving DecidableEq, Repr

/-- A printed line of the payment/order example, as a structured event
(the f-strings format the amount with `:.2f`; the event carries the amount
itself). -/
inductive OrderEvent where
  | processingPayment (method : PaymentProcessor) (amount : ℚ)
  | creatingOrder (amount : ℚ)
  | orderSuccess
  | orderFailure
deriving DecidableEq, Repr

/-- `process_payment` of each `PaymentProcessor` subclass (`dip_example.py`
lines 189-207): prints one line and returns `True`. -/
def PaymentProcessor.process_payment (p : PaymentProcessor) (amount : ℚ) :
    Bool × List OrderEvent :=
  (true, [.processingPayment p amount])

/-- `OrderService` (`dip_example.py` lines 210-223): holds the injected
`PaymentProcessor`. -/
structure OrderService where
  payment_processor : PaymentProcessor
deriving DecidableEq, Repr

/-- `OrderService.create_order` (`dip_example.py` lines 217-223): prints the
creation banner, runs `process_payment`, then prints the success or failure
line depending on the returned flag. -/
def OrderService.create_order (svc : OrderService) (amount : ℚ) : List OrderEvent :=
  let result := svc.payment_processor.process_payment amount
  [.creatingOrder amount] ++ result.2 ++
    (if result.1 then [.orderSuccess] else [.orderFailure])

end DipExample

namespace LspExemple

/-- `Penguin` of the anti-pattern hierarchy (`lsp_exemple.py` lines 32-38):
holds the `name` set by the `Bird` base constructor. -/
structure Penguin where
  name : String
deriving DecidableEq, Repr

/-- `Penguin.fly` (`lsp_exemple.py` lines 35-38): unconditionally raises. -/
def Penguin.fly (p : Penguin) : Except PyError (List String) :=
  .error (.exception (p.name ++ " não pode voar! Pinguins não voam!"))

/-- `Ostrich` of the anti-pattern hierarchy (`lsp_exemple.py` lines 41-46). -/
structure Ostrich where
  name : String
deriving DecidableEq, Repr

/-- `Ostrich.fly` (`lsp_exemple.py` lines 44-46): unconditionally raises. -/
def Ostrich.fly (o : Ostrich) : Except PyError (List String) :=
  .error (.exception (o.name ++ " não pode voar! Avestruzes não voam!"))

/-- `PenguinCorrect` (`lsp_exemple.py` lines 91-95): a `NonFlyingBird`,
holding the `name` set by the `BirdCorrect` base constructor. -/
structure PenguinCorrect where
  name : String
deriving DecidableEq, Repr

/-- The operations reachable on a `PenguinCorrect` value: `eat` and
`make_sound` from `BirdCorrect`, `walk` from `NonFlyingBird`, and its own
`swim`.  There is no `fly` constructor: the corrected hierarchy gives
`PenguinCorrect` no such method, so the unsupported invocation is
unrepresentable rather than a runtime error path. -/
inductive PenguinCorrectOp where
  | eat
  | make_sound
  | walk
  | swim
deriving DecidableEq, Repr

/-- The methods of `PenguinCorrect` (`lsp_exemple.py` lines 56-62, 76-78,
94-95): every one prints and returns normally. -/
def PenguinCorrect.invoke (p : PenguinCorrect) : PenguinCorrectOp → Except PyError (List String)
  | .eat => .ok [p.name ++ " está comendo."]
  | .make_sound => .ok [p.name ++ " está fazendo som."]
  | .walk => .ok [p.name ++ " está andando."]
  | .swim => .ok [p.name ++ " está nadando!"]

/-- `OstrichCorrect` (`lsp_exemple.py` lines 98-102): a `NonFlyingBird`. -/
structure OstrichCorrect where
  name : String
deriving DecidableEq, Repr

/-- The operations reachable on an `OstrichCorrect` value; again no `fly`. -/
inductive OstrichCorrectOp where
  | eat
  | make_sound
  | walk
  | run_fast
deriving DecidableEq, Repr

/-- The methods of `OstrichCorrect` (`lsp_exemple.py` lines 56-62, 76-78,
101-102): every one prints and returns normally. -/
def OstrichCorrect.invoke (o : OstrichCorrect) : OstrichCorrectOp → Except PyError (List String)
  | .eat => .ok [o.name ++ " está comendo."]
  | .make_sound => .ok [o.name ++ " está fazendo som."]
  | .walk => .ok [o.name ++ " está andando."]
  | .run_fast => .ok [o.name ++ " está correndo muito rápido!"]

/-- `RectangleCorrect` (`lsp_exemple.py` lines 148-162): fields `_width`,
`_height`. -/
structure RectangleCorrect where
  _width : ℚ
  _height : ℚ
deriving DecidableEq, Repr

/-- `RectangleCorrect.set_width` (`lsp_exemple.py` lines 155-156):
`self._width = width` — returns the updated state. -/
def RectangleCorrect.set_width (r : RectangleCorrect) (width : ℚ) : RectangleCorrect :=
  ⟨width, r._height⟩

/-- `RectangleCorrect.set_height` (`lsp_exemple.py` lines 158-159):
`self._height = height` — returns the updated state. -/
def RectangleCorrect.set_height (r : RectangleCorrect) (height : ℚ) : RectangleCorrect :=
  ⟨r._width, height⟩

/-- `RectangleCorrect.get_area` (`lsp_exemple.py` lines 161-162). -/
def RectangleCorrect.get_area (r : RectangleCorrect) : ℚ :=
  r._width * r._height

/-- `SquareCorrect` (`lsp_exemple.py` lines 165-175): field `_side`. -/
structure SquareCorrect where
  _side : ℚ
deriving DecidableEq, Repr

/-- `SquareCorrect.set_side` (`lsp_exemple.py` lines 171-172). -/
def SquareCorrect.set_side (_ : SquareCorrect) (side : ℚ) : SquareCorrect :=
  ⟨side⟩

/-- `SquareCorrect.get_area` (`lsp_exemple.py` lines 174-175). -/
def SquareCorrect.get_area (s : SquareCorrect) : ℚ :=
  s._side * s._side

end LspExemple

namespace IspExemple

/-- The three operations of the broad `Worker` interface
(`isp_exemple.py` lines 12-28). -/
inductive WorkerOp where
  | work
  | eat
  | sleep
deriving DecidableEq, Repr

/-- `RobotWorker` of the anti-pattern design (`isp_exemple.py` lines 44-56):
`work` prints, `eat` and `sleep` raise `NotImplementedError`. -/
def RobotWorker.invoke : WorkerOp → Except PyError (List String)
  | .work => .ok ["🤖 Robô trabalhando..."]
  | .eat => .error (.notImplementedError "Robôs não comem!")
  | .sleep => .error (.notImplementedError "Robôs não dormem!")

/-- The operations reachable on a `RobotWorkerCorrect` value
(`isp_exemple.py` lines 97-101): only `work` — the class implements only
`Workable`, so `eat`/`sleep` are unrepresentable on it. -/
inductive RobotWorkerCorrectOp where
  | work
deriving DecidableEq, Repr

/-- `RobotWorkerCorrect.work` (`isp_exemple.py` lines 100-101). -/
def RobotWorkerCorrect.invoke : RobotWorkerCorrectOp → Except PyError (List String)
  | .work => .ok ["🤖 Robô trabalhando 24/7..."]

/-- The operations reachable on a `SimplePrinterCorrect` value
(`isp_exemple.py` lines 192-196): only `print_document` — the class
implements only `Printer`. -/
inductive SimplePrinterCorrectOp where
  | print_document (document : String)
deriving DecidableEq, Repr

/-- `SimplePrinterCorrect.print_document` (`isp_exemple.py` lines 195-196). -/
def SimplePrinterCorrect.invoke : SimplePrinterCorrectOp → Except PyError (List String)
  | .print_document document => .ok ["🖨️  Imprimindo: " ++ document]

end IspExemple

namespace SrpExemple

/-- `User` (`srp_exemple.py` lines 33-45). -/
structure User where
  name : String
  email : String
deriving DecidableEq, Repr

/-- `UserRepository.find_by_email` (`srp_exemple.py` lines 56-60): prints
the lookup line and returns `None`, for every argument. -/
def UserRepository.find_by_email (email : String) : Option User × List String :=
  (none, ["✓ Buscando usuário com e-mail " ++ email ++ "..."])

/-- `UserRepository.save` (`srp_exemple.py` lines 51-54): prints only; the
class has no fields, so nothing is stored. -/
def UserRepository.save (user : User) : List String :=
  ["✓ Salvando usuário " ++ user.name ++ " no banco de dados..."]

/-- A call to one of the public methods of `UserRepository`. -/
inductive RepoOp where
  | saveOp (user : User)
  | findByEmailOp (email : String)
deriving DecidableEq, Repr

/-- Whether a `RepoOp` is a `find_by_email` call. -/
def RepoOp.isFind : RepoOp → Bool
  | .saveOp _ => false
  | .findByEmailOp _ => true

/-- Running a sequence of calls against a `UserRepository` instance and
collecting the value returned by each `find_by_email` call.  The class has
no fields (`srp_exemple.py` lines 48-60), so there is no state to thread:
each call's result depends only on its argument. -/
def UserRepository.run : List RepoOp → List (Option User)
  | [] => []
  | .saveOp _ :: rest => UserRepository.run rest
  | .findByEmailOp email :: rest =>
    (UserRepository.find_by_email email).1 :: UserRepository.run rest

end SrpExemple

/-! Helper lemmas about the fan-out loops. -/

theorem notifyLoop_map_sender (senders : List DipExample.MessageSender) (message : String) :
    (DipExample.notifyLoop senders message).map DipExample.SendCall.sender = senders := by
  induction senders with
  | nil => rfl
  | cons s rest ih => simp [DipExample.notifyLoop, ih]

theorem notifyLoop_map_message (senders : List DipExample.MessageSender) (message : String) :
    (DipExample.notifyLoop senders message).map DipExample.SendCall.message =
      List.replicate senders.length message := by
  induction senders with
  | nil => rfl
  | cons s rest ih => simp [DipExample.notifyLoop, ih, List.replicate_succ]

theorem notifyAllLoop_map_notifier (notifiers : List OcpExample.Notifier) (message : String) :
    (OcpExample.notifyAllLoop notifiers message).map OcpExample.NotifierCall.notifier =
      notifiers := by
  induction notifiers with
  | nil => rfl
  | cons n rest ih => simp [OcpExample.notifyAllLoop, ih]

theorem notifyAllLoop_map_message (notifiers : List OcpExample.Notifier) (message : String) :
    (OcpExample.notifyAllLoop notifiers message).map OcpExample.NotifierCall.message =
      List.replicate notifiers.length message := by
  induction notifiers with
  | nil => rfl
  | cons n rest ih => simp [OcpExample.notifyAllLoop, ih, List.replicate_succ]

/-- `notifyRun` instantiated with providers whose `send` never raises agrees
with the call trace of the concrete loop: every provider is invoked and no
error surfaces. -/
theorem notifyRun_all_ok (senders : List DipExample.MessageSender) (message : String) :
    DipExample.notifyRun
        (fun s m => Except.ok [DipExample.MessageSender.send s m]) senders message =
      (senders,
       senders.map (fun s => DipExample.MessageSender.send s message),
       none) := by
  induction senders with
  | nil => rfl
  | cons s rest ih => simp [DipExample.notifyRun, ih]

/-! Claim theorems. -/

/-- C1: for any two `Database` providers `P1 P2` and any argument, a
`UserService` bound to `P2` returns exactly `P2.get_data`'s output — the
consumer's result is fully determined by the bound provider and the
argument — and whenever the two providers' outputs differ, the rebound
consumer's result is `P2`'s, not `P1`'s. -/
theorem c1_substitutability (P1 P2 : DipExample.Database) (id : String) :
    DipExample.UserService.get_user ⟨P2⟩ id = P2.get_data id ∧
    (P1.get_data id ≠ P2.get_data id →
      DipExample.UserService.get_user ⟨P2⟩ id ≠
        DipExample.UserService.get_user ⟨P1⟩ id) :=
  ⟨rfl, fun h heq => h heq.symm⟩

/-- C1 witness: `UserService` rebound from `MySQLDatabaseCorrect` to
`PostgreSQLDatabase`, queried with id `"123"`. -/
theorem c1_substitutability_witness :
    DipExample.UserService.get_user ⟨DipExample.Database.postgreSQLDatabase⟩ "123" =
      DipExample.Database.get_data .postgreSQLDatabase "123" ∧
    DipExample.UserService.get_user ⟨DipExample.Database.postgreSQLDatabase⟩ "123" ≠
      DipExample.UserService.get_user ⟨DipExample.Database.mySQLDatabaseCorrect⟩ "123" :=
  ⟨(c1_substitutability .mySQLDatabaseCorrect .postgreSQLDatabase "123").1,
   (c1_substitutability .mySQLDatabaseCorrect .postgreSQLDatabase "123").2 (by decide)⟩

/-- C2: both fan-out consumers (`NotificationService.notify` of
`dip_example.py` and `NotificationService.notify_all` of `ocp_example.py`)
invoke each bound provider's `send` exactly once, in binding order, passing
each the literal message unchanged; concretely, a service bound to
`[EmailSender, SMSSender]` invoked with `"code:123456"` produces exactly the
two calls Email-then-SMS, each receiving `"code:123456"`. -/
theorem c2_fanout_invocation_order :
    (∀ (senders : List DipExample.MessageSender) (message : String),
      (DipExample.NotificationService.notify ⟨senders⟩ message).map
          DipExample.SendCall.sender = senders ∧
      (DipExample.NotificationService.notify ⟨senders⟩ message).map
          DipExample.SendCall.message = List.replicate senders.length message) ∧
    (∀ (notifiers : List OcpExample.Notifier) (message : String),
      (OcpExample.NotificationService.notify_all ⟨notifiers⟩ message).map
          OcpExample.NotifierCall.notifier = notifiers ∧
      (OcpExample.NotificationService.notify_all ⟨notifiers⟩ message).map
          OcpExample.NotifierCall.message = List.replicate notifiers.length message) ∧
    DipExample.NotificationService.notify
        ⟨[.emailSender, .smsSender]⟩ "code:123456" =
      [⟨.emailSender, "code:123456"⟩, ⟨.smsSender, "code:123456"⟩] :=
  ⟨fun senders message =>
    ⟨notifyLoop_map_sender senders message, notifyLoop_map_message senders message⟩,
   fun notifiers message =>
    ⟨notifyAllLoop_map_notifier notifiers message, notifyAllLoop_map_message notifiers message⟩,
   rfl⟩

/-- C3: at input price `100.0`, the providers `NoDiscount`,
`PremiumDiscount`, `VIPDiscount`, `SeasonalDiscount` return the discount
amounts `0.0, 10.0, 20.0, 15.0`, and `DiscountCalculator.calculate_final_price`
composed with each returns `100.0, 90.0, 80.0, 85.0`. -/
theorem c3_discount_scenario :
    OcpExample.Discount.calculate .noDiscount 100 = 0 ∧
    OcpExample.Discount.calculate .premiumDiscount 100 = 10 ∧
    OcpExample.Discount.calculate .vipDiscount 100 = 20 ∧
    OcpExample.Discount.calculate .seasonalDiscount 100 = 15 ∧
    OcpExample.DiscountCalculator.calculate_final_price 100 .noDiscount = 100 ∧
    OcpExample.DiscountCalculator.calculate_final_price 100 .premiumDiscount = 90 ∧
    OcpExample.DiscountCalculator.calculate_final_price 100 .vipDiscount = 80 ∧
    OcpExample.DiscountCalculator.calculate_final_price 100 .seasonalDiscount = 85 := by
  refine ⟨?_, ?_, ?_, ?_, ?_, ?_, ?_, ?_⟩ <;>
    norm_num [OcpExample.Discount.calculate,
      OcpExample.DiscountCalculator.calculate_final_price]

/-- C4 counterexample: `DiscountCalculator.calculate_final_price` does NOT
return the provider's `calculate` result unchanged — at price `100.0` with
`PremiumDiscount` it returns `90.0` while the provider returns `10.0`. -/
theorem c4_pass_through_counterexample :
    OcpExample.DiscountCalculator.calculate_final_price 100 .premiumDiscount ≠
      OcpExample.Discount.calculate .premiumDiscount 100 := by
  norm_num [OcpExample.Discount.calculate,
    OcpExample.DiscountCalculator.calculate_final_price]

/-- C4 (amended): `UserService.get_user` is a verbatim pass-through of the
bound provider's `get_data`; `DiscountCalculator.calculate_final_price` is
not a pass-through — it applies the fixed transformation
`price - discount.calculate(price)` to the provider's result. -/
theorem c4_pass_through_amended :
    (∀ (db : DipExample.Database) (id : String),
      DipExample.UserService.get_user ⟨db⟩ id = db.get_data id) ∧
    (∀ (price : ℚ) (d : OcpExample.Discount),
      OcpExample.DiscountCalculator.calculate_final_price price d =
        price - d.calculate price) :=
  ⟨fun _ _ => rfl, fun _ _ => rfl⟩

/-- C5: in the corrected designs every reachable capability method returns
normally — `RobotWorkerCorrect`, `SimplePrinterCorrect`, `PenguinCorrect`
and `OstrichCorrect` expose only the operations they implement (their
operation types have no constructor for an unsupported operation, so
invoking one is unrepresentable rather than a runtime error path) and none
of those operations produces an error — while in the anti-pattern classes
`RobotWorker.eat`, `RobotWorker.sleep` and `Penguin.fly` raise when
called. -/
theorem c5_no_unsupported_operation :
    (∀ op, ∃ out, IspExemple.RobotWorkerCorrect.invoke op = Except.ok out) ∧
    (∀ op, ∃ out, IspExemple.SimplePrinterCorrect.invoke op = Except.ok out) ∧
    (∀ (p : LspExemple.PenguinCorrect) op, ∃ out, p.invoke op = Except.ok out) ∧
    (∀ (o : LspExemple.OstrichCorrect) op, ∃ out, o.invoke op = Except.ok out) ∧
    (∃ e, IspExemple.RobotWorker.invoke .eat = Except.error e) ∧
    (∃ e, IspExemple.RobotWorker.invoke .sleep = Except.error e) ∧
    (∃ e, LspExemple.Penguin.fly ⟨"Pinguim"⟩ = Except.error e) := by
  refine ⟨fun op => ?_, fun op => ?_, fun p op => ?_, fun o op => ?_,
    ⟨_, rfl⟩, ⟨_, rfl⟩, ⟨_, rfl⟩⟩ <;> cases op <;> exact ⟨_, rfl⟩

/-- C6 counterexample: the anti-pattern dispatcher does NOT surface an
error on an unrecognized tag — `DiscountCalculatorBad.calculate_discount`
applied to the unknown tag `"desconhecido"` at price `100.0` returns the
default result `0.0` normally instead of raising. -/
theorem c6_unknown_tag_counterexample :
    OcpExample.DiscountCalculatorBad.calculate_discount "desconhecido" 100 =
      Except.ok 0 := by
  simp [OcpExample.DiscountCalculatorBad.calculate_discount]

/-- C6 (amended): when `DiscountCalculatorBad.calculate_discount` receives
a `customer_type` tag other than the four recognized ones, no error
surfaces — the unknown tag is silently absorbed into the default result
`0.0` by the final `else` branch. -/
theorem c6_unknown_tag_amended (customer_type : String) (price : ℚ)
    (h1 : customer_type ≠ "regular") (h2 : customer_type ≠ "premium")
    (h3 : customer_type ≠ "vip") (h4 : customer_type ≠ "employee") :
    OcpExample.DiscountCalculatorBad.calculate_discount customer_type price =
      Except.ok 0 := by
  simp [OcpExample.DiscountCalculatorBad.calculate_discount, h1, h2, h3, h4]

/-- C6 witness: the amended claim at the unknown tag `"cliente_novo"` and
price `100.0`. -/
theorem c6_unknown_tag_witness :
    OcpExample.DiscountCalculatorBad.calculate_discount "cliente_novo" 100 =
      Except.ok 0 :=
  c6_unknown_tag_amended "cliente_novo" 100
    (by decide) (by decide) (by decide) (by decide)

/-- C7 counterexample: operations of corrected classes DO change their own
state after construction — `RectangleCorrect.set_width` applied to the
rectangle `⟨5, 4⟩` with new width `7` yields a different state, and
`NotificationService.add_notifier` applied to the freshly constructed
service changes its state. -/
theorem c7_immutability_counterexample :
    LspExemple.RectangleCorrect.set_width ⟨5, 4⟩ 7 ≠ (⟨5, 4⟩ : LspExemple.RectangleCorrect) ∧
    OcpExample.NotificationService.add_notifier ⟨[]⟩ .emailNotifier ≠
      (⟨[]⟩ : OcpExample.NotificationService) := by
  constructor <;> decide

/-- C7 (amended): the corrected examples are not all immutable after
construction — `NotificationService.add_notifier`, `RectangleCorrect.set_width`,
`RectangleCorrect.set_height` and `SquareCorrect.set_side` are explicit
mutators whose exact effect on the receiver's own state is as below (and
`set_width` genuinely changes the state whenever the new width differs);
the invocation operations themselves (`notify_all`, `get_area`, `notify`,
`get_user`, `calculate_final_price`) read state without modifying it. -/
theorem c7_mutation_effects :
    (∀ (svc : OcpExample.NotificationService) (n : OcpExample.Notifier),
      (svc.add_notifier n).notifiers = svc.notifiers ++ [n]) ∧
    (∀ (r : LspExemple.RectangleCorrect) (w : ℚ),
      r.set_width w = ⟨w, r._height⟩) ∧
    (∀ (r : LspExemple.RectangleCorrect) (h : ℚ),
      r.set_height h = ⟨r._width, h⟩) ∧
    (∀ (s : LspExemple.SquareCorrect) (x : ℚ), s.set_side x = ⟨x⟩) ∧
    (∀ (r : LspExemple.RectangleCorrect) (w : ℚ),
      w ≠ r._width → r.set_width w ≠ r) :=
  ⟨fun _ _ => rfl, fun _ _ => rfl, fun _ _ => rfl, fun _ _ => rfl,
   fun _ _ hw heq => hw (congrArg LspExemple.RectangleCorrect._width heq)⟩

/-- C7 witness: the mutation conjunct of the amended claim at the rectangle
`⟨5, 4⟩` and new width `7`. -/
theorem c7_mutation_effects_witness :
    (7 : ℚ) ≠ 5 ∧
    LspExemple.RectangleCorrect.set_width ⟨5, 4⟩ 7 ≠ (⟨(5 : ℚ), (4 : ℚ)⟩ : LspExemple.RectangleCorrect) :=
  ⟨by decide, c7_mutation_effects.2.2.2.2 ⟨5, 4⟩ 7 (by decide)⟩

/-- C8: the fan-out loop is fail-fast — for every behaviour of the bound
providers' `send`, if the providers before position `k` succeed and the
provider at position `k` raises, then `notifyRun` surfaces exactly that
error to the caller and the providers after position `k` are never
invoked (the invoked-provider trace is precisely the first `k + 1`
providers); no aggregate of failures is collected. -/
theorem c8_fail_fast {α : Type} (send : α → String → Except PyError (List String))
    (pre post : List α) (s : α) (message : String) (e : PyError)
    (hpre : ∀ p ∈ pre, ∃ out, send p message = Except.ok out)
    (hs : send s message = Except.error e) :
    (DipExample.notifyRun send (pre ++ s :: post) message).1 = pre ++ [s] ∧
    (DipExample.notifyRun send (pre ++ s :: post) message).2.2 = some e := by
  induction pre with
  | nil => simp [DipExample.notifyRun, hs]
  | cons p rest ih =>
    obtain ⟨out, hout⟩ := hpre p (by simp)
    have hrec := ih fun q hq => hpre q (by simp [hq])
    simp only [List.cons_append, DipExample.notifyRun, hout]
    exact ⟨by simp [hrec.1], by simp [hrec.2]⟩

/-- C8 witness: three bound providers where the second one's `send` raises;
the loop invokes only the first two and surfaces the second one's error. -/
theorem c8_fail_fast_witness :
    (DipExample.notifyRun
        (fun (b : Bool) _ =>
          if b then Except.ok ([] : List String)
          else Except.error (PyError.exception "falha no envio"))
        [true, false, true] "msg").1 = [true, false] ∧
    (DipExample.notifyRun
        (fun (b : Bool) _ =>
          if b then Except.ok ([] : List String)
          else Except.error (PyError.exception "falha no envio"))
        [true, false, true] "msg").2.2 = some (PyError.exception "falha no envio") :=
  c8_fail_fast
    (fun (b : Bool) _ =>
      if b then Except.ok ([] : List String)
      else Except.error (PyError.exception "falha no envio"))
    [true] [true] false "msg" (PyError.exception "falha no envio")
    (by intro p hp; simp only [List.mem_singleton] at hp; subst hp; exact ⟨[], rfl⟩)
    rfl

/-- C9: `UserRepository.find_by_email` returns `None` for every email
argument, and across any sequence of `save` / `find_by_email` calls on the
repository every lookup result is `None` — prior `save` calls store
nothing that a lookup could yield. -/
theorem c9_find_by_email_none :
    (∀ email, (SrpExemple.UserRepository.find_by_email email).1 = none) ∧
    (∀ ops : List SrpExemple.RepoOp,
      SrpExemple.UserRepository.run ops =
        List.replicate (ops.countP SrpExemple.RepoOp.isFind) none) := by
  refine ⟨fun _ => rfl, fun ops => ?_⟩
  induction ops with
  | nil => rfl
  | cons op rest ih =>
    cases op <;>
      simp [SrpExemple.UserRepository.run, SrpExemple.RepoOp.isFind,
        List.countP_cons, ih, SrpExemple.UserRepository.find_by_email,
        List.replicate_succ]

/-- C10: every provided `PaymentProcessor` returns `True` from
`process_payment` for every amount, so `OrderService.create_order` always
takes the success branch: its output is exactly the creation banner, the
processor's line, and the success line — the failure line is unreachable. -/
theorem c10_payment_always_success (p : DipExample.PaymentProcessor) (amount : ℚ) :
    (DipExample.PaymentProcessor.process_payment p amount).1 = true ∧
    DipExample.OrderService.create_order ⟨p⟩ amount =
      [.creatingOrder amount, .processingPayment p amount, .orderSuccess] :=
  ⟨rfl, rfl⟩
